import Mathlib

/-!
Shallow embedding of `tensorflow_quantum/python/optimizers/spsa_minimizer.py`.

Modelling choices:
* float32 scalars are modelled as exact rationals (`ℚ`);
* the single non-finite value the program manipulates, the `np.inf`
  initialisation of `objective_value_previous_iteration`, is modelled by the
  two-case type `ObjVal`, whose arithmetic mirrors IEEE semantics for a
  positive infinity combined with finite values (`∞ + a = ∞`, `∞ ≥ c` is
  true, `|x - ∞| < t` is false for finite `t`);
* vectors (`tf.Tensor` of shape `[n]`) are lists of rationals with
  elementwise arithmetic, matching the broadcast semantics used by the code;
* the random generator (`tf.random.Generator.from_seed` / the global
  `tf.random` module, both external to the repository) is modelled as an
  input stream of raw uniform draws, one length-`n` vector of bits in
  `{0, 1}` per iteration (the code draws `uniform(minval=0, maxval=2,
  dtype=int32)`); the transformation `2 * u - 1` giving the ±1 perturbation
  is part of the code and is embedded in `deltaShift`;
* the float32 power `x ** y` appearing in the decay schedules is modelled by
  an uninterpreted function parameter `powf : ℚ → ℚ → ℚ`;
* `tf.while_loop` is embedded as a fuel-indexed loop; the fuel
  `max_iterations.toNat` is sufficient because every body application
  increases `num_iterations` by exactly one and the loop condition requires
  `num_iterations < max_iterations`.
-/

namespace SPSA

/-- A float32 objective value extended with the positive infinity used to
initialise `objective_value_previous_iteration`. -/
inductive ObjVal where
  | inf : ObjVal
  | val : ℚ → ObjVal
deriving Repr, DecidableEq

/-- IEEE-style addition of a finite rational to an objective value:
`∞ + a = ∞`. -/
def ObjVal.addQ : ObjVal → ℚ → ObjVal
  | ObjVal.inf, _ => ObjVal.inf
  | ObjVal.val p, a => ObjVal.val (p + a)

/-- IEEE-style comparison `v ≥ c` for finite `c`: true when `v = ∞`. -/
def ObjVal.geQ : ObjVal → ℚ → Bool
  | ObjVal.inf, _ => true
  | ObjVal.val p, c => decide (p ≥ c)

/-- IEEE-style truth value of `|x - v| < t` for finite `x`, `t`:
false when `v = ∞`, since `|x - ∞| = ∞`. -/
def ObjVal.absDiffLt (x : ℚ) : ObjVal → ℚ → Bool
  | ObjVal.inf, _ => false
  | ObjVal.val p, t => decide (|x - p| < t)

/-- Elementwise difference of two position vectors. -/
def vsub (a b : List ℚ) : List ℚ := List.zipWith (fun x y => x - y) a b

/-- Elementwise sum of two position vectors. -/
def vadd (a b : List ℚ) : List ℚ := List.zipWith (fun x y => x + y) a b

/-- Broadcast product of a scalar with a position vector. -/
def smulV (c : ℚ) (v : List ℚ) : List ℚ := v.map (fun x => c * x)

/-- The perturbation direction: `2 * u - 1` applied to raw uniform draws
`u ∈ {0, 1}` (a `true` bit is the draw `1`), yielding entries in `{-1, 1}`.
Mirrors the `delta_shift` computation in `_spsa_once`. -/
def deltaShift (bits : List Bool) : List ℚ :=
  bits.map (fun b => 2 * (if b then (1 : ℚ) else 0) - 1)

/-- The mutable optimizer state, mirroring the `SPSAOptimizerResults` named
tuple of the source (every field a `tf.Variable` or configuration scalar). -/
structure SPSAOptimizerResults where
  converged : Bool
  num_iterations : ℕ
  num_objective_evaluations : ℕ
  position : List ℚ
  objective_value_previous_iteration : ObjVal
  objective_value : ℚ
  tolerance : ℚ
  lr : ℚ
  alpha : ℚ
  perturb : ℚ
  gamma : ℚ
  blocking : Bool
  allowed_increase : ℚ
deriving Repr, DecidableEq

/-- `_get_initial_state`: counters at zero, `converged = False`,
`objective_value = 0.`, `objective_value_previous_iteration = np.inf`.
The `expectation_value_function` parameter is accepted (as in the source)
but unused. -/
def _get_initial_state (initial_position : List ℚ) (tolerance : ℚ)
    (expectation_value_function : List ℚ → ℚ)
    (lr alpha perturb gamma : ℚ) (blocking : Bool) (allowed_increase : ℚ) :
    SPSAOptimizerResults :=
  { converged := false
    num_iterations := 0
    num_objective_evaluations := 0
    position := initial_position
    objective_value := 0
    objective_value_previous_iteration := ObjVal.inf
    tolerance := tolerance
    lr := lr
    alpha := alpha
    perturb := perturb
    gamma := gamma
    blocking := blocking
    allowed_increase := allowed_increase }

/-- `_spsa_once`: one SPSA gradient-estimation step, given the ±1
perturbation vector `delta_shift` drawn for this step. -/
def _spsa_once (expectation_value_function : List ℚ → ℚ)
    (delta_shift : List ℚ) (state : SPSAOptimizerResults) :
    SPSAOptimizerResults :=
  let v_m := expectation_value_function
    (vsub state.position (smulV state.perturb delta_shift))
  let v_p := expectation_value_function
    (vadd state.position (smulV state.perturb delta_shift))
  let gradient_estimate := smulV ((v_p - v_m) / (2 * state.perturb)) delta_shift
  let update := smulV state.lr gradient_estimate
  let state1 :=
    { state with num_objective_evaluations :=
        state.num_objective_evaluations + 2 }
  let current_obj := expectation_value_function (vsub state1.position update)
  if ((state1.objective_value_previous_iteration.addQ
        state1.allowed_increase).geQ current_obj || !state1.blocking) then
    { state1 with
        position := vsub state1.position update
        objective_value_previous_iteration := ObjVal.val state1.objective_value
        objective_value := current_obj }
  else
    state1

/-- `_cond`: continue while iterations remain and the stopping condition is
not met. -/
def _cond (max_iterations : ℤ) (state : SPSAOptimizerResults) : Bool :=
  decide ((state.num_iterations : ℤ) < max_iterations) && !state.converged

/-- `_body`: the main optimization loop body. The generator draw for this
iteration is `stream state.num_iterations` (the generator is consumed
sequentially, one draw per iteration). -/
def _body (expectation_value_function : List ℚ → ℚ) (powf : ℚ → ℚ → ℚ)
    (lr_init perturb_init : ℚ) (max_iterations : ℤ)
    (stream : ℕ → List Bool) (state : SPSAOptimizerResults) :
    SPSAOptimizerResults :=
  let new_lr := lr_init /
    powf (((state.num_iterations : ℚ) + 1) + (1 / 100) * (max_iterations : ℚ))
      state.alpha
  let new_perturb := perturb_init / powf ((state.num_iterations : ℚ) + 1)
    state.gamma
  let state1 := { state with lr := new_lr, perturb := new_perturb }
  let state2 := _spsa_once expectation_value_function
    (deltaShift (stream state.num_iterations)) state1
  let state3 := { state2 with num_iterations := state2.num_iterations + 1 }
  let conv := ObjVal.absDiffLt state3.objective_value
    state3.objective_value_previous_iteration state3.tolerance
  { state3 with converged := conv }

/-- The `tf.while_loop`, as a fuel-indexed loop: runs `_body` while `_cond`
holds and fuel remains. -/
def whileLoopFuel (expectation_value_function : List ℚ → ℚ)
    (powf : ℚ → ℚ → ℚ) (lr_init perturb_init : ℚ) (max_iterations : ℤ)
    (stream : ℕ → List Bool) :
    ℕ → SPSAOptimizerResults → SPSAOptimizerResults
  | 0, state => state
  | Nat.succ n, state =>
    if _cond max_iterations state then
      whileLoopFuel expectation_value_function powf lr_init perturb_init
        max_iterations stream n
        (_body expectation_value_function powf lr_init perturb_init
          max_iterations stream state)
    else
      state

/-- The initial state after the upfront objective evaluation at the initial
position (source lines 268-275). -/
def initialStateEvaluated (expectation_value_function : List ℚ → ℚ)
    (initial_position : List ℚ) (tolerance : ℚ)
    (lr alpha perturb gamma : ℚ) (blocking : Bool) (allowed_increase : ℚ) :
    SPSAOptimizerResults :=
  let initial_state := _get_initial_state initial_position tolerance
    expectation_value_function lr alpha perturb gamma blocking
    allowed_increase
  { initial_state with objective_value :=
      expectation_value_function initial_state.position }

/-- `minimize`: build the initial state, evaluate the objective once at the
initial position, then run the while loop. The `seed`-dependent generator is
abstracted as the `stream` argument. -/
def minimize (expectation_value_function : List ℚ → ℚ)
    (powf : ℚ → ℚ → ℚ) (initial_position : List ℚ) (tolerance : ℚ)
    (max_iterations : ℤ) (alpha lr perturb gamma : ℚ) (blocking : Bool)
    (allowed_increase : ℚ) (stream : ℕ → List Bool) : SPSAOptimizerResults :=
  whileLoopFuel expectation_value_function powf lr perturb max_iterations
    stream max_iterations.toNat
    (initialStateEvaluated expectation_value_function initial_position
      tolerance lr alpha perturb gamma blocking allowed_increase)

/-- One guarded loop step: apply `_body` when `_cond` holds, else leave the
state unchanged. Used to expose the trajectory of a run. -/
def stepIf (expectation_value_function : List ℚ → ℚ) (powf : ℚ → ℚ → ℚ)
    (lr_init perturb_init : ℚ) (max_iterations : ℤ)
    (stream : ℕ → List Bool) (state : SPSAOptimizerResults) :
    SPSAOptimizerResults :=
  if _cond max_iterations state then
    _body expectation_value_function powf lr_init perturb_init
      max_iterations stream state
  else
    state

/-- The trajectory of a run of `minimize`: the state after `j` guarded loop
steps, starting from the initial state with the upfront evaluation. -/
def traj (expectation_value_function : List ℚ → ℚ) (powf : ℚ → ℚ → ℚ)
    (initial_position : List ℚ) (tolerance : ℚ) (max_iterations : ℤ)
    (alpha lr perturb gamma : ℚ) (blocking : Bool) (allowed_increase : ℚ)
    (stream : ℕ → List Bool) : ℕ → SPSAOptimizerResults
  | 0 => initialStateEvaluated expectation_value_function initial_position
      tolerance lr alpha perturb gamma blocking allowed_increase
  | Nat.succ j => stepIf expectation_value_function powf lr perturb
      max_iterations stream
      (traj expectation_value_function powf initial_position tolerance
        max_iterations alpha lr perturb gamma blocking allowed_increase
        stream j)

/-- The SPSA gradient estimate `g = (v_p - v_m) / (2 * perturb) * delta`,
written from the specification of the gradient-estimation step. -/
def gradEstimate (f : List ℚ → ℚ) (delta : List ℚ)
    (s : SPSAOptimizerResults) : List ℚ :=
  smulV ((f (vadd s.position (smulV s.perturb delta)) -
          f (vsub s.position (smulV s.perturb delta))) / (2 * s.perturb))
    delta

/-- The candidate next position `position - lr * g`, written from the
specification of the gradient-estimation step. -/
def candidatePosition (f : List ℚ → ℚ) (delta : List ℚ)
    (s : SPSAOptimizerResults) : List ℚ :=
  vsub s.position (smulV s.lr (gradEstimate f delta s))

/-- The objective value at the candidate position. -/
def currentObj (f : List ℚ → ℚ) (delta : List ℚ)
    (s : SPSAOptimizerResults) : ℚ :=
  f (candidatePosition f delta s)

/-- The blocking acceptance guard
`objective_value_previous_iteration + allowed_increase ≥ current_obj`. -/
def acceptGuard (f : List ℚ → ℚ) (delta : List ℚ)
    (s : SPSAOptimizerResults) : Bool :=
  (s.objective_value_previous_iteration.addQ s.allowed_increase).geQ
    (currentObj f delta s)

/-- The state after an accepted SPSA step, written from the spec's
acceptance rule: position moves to the candidate,
`objective_value_previous_iteration` takes the old `objective_value`,
`objective_value` takes the candidate objective, and the evaluation counter
advances by 2. -/
def acceptedState (f : List ℚ → ℚ) (delta : List ℚ)
    (s : SPSAOptimizerResults) : SPSAOptimizerResults :=
  { s with
      num_objective_evaluations := s.num_objective_evaluations + 2
      position := candidatePosition f delta s
      objective_value_previous_iteration := ObjVal.val s.objective_value
      objective_value := currentObj f delta s }

/-- The state after a rejected SPSA step: only the evaluation counter
advances. -/
def rejectedState (s : SPSAOptimizerResults) : SPSAOptimizerResults :=
  { s with num_objective_evaluations := s.num_objective_evaluations + 2 }

/-- The schedule-update stage of the loop body (source lines 251-258). -/
def scheduleUpdate (powf : ℚ → ℚ → ℚ) (lr_init perturb_init : ℚ)
    (max_iterations : ℤ) (s : SPSAOptimizerResults) : SPSAOptimizerResults :=
  let new_lr := lr_init /
    powf (((s.num_iterations : ℚ) + 1) + (1 / 100) * (max_iterations : ℚ))
      s.alpha
  let new_perturb := perturb_init / powf ((s.num_iterations : ℚ) + 1) s.gamma
  { s with lr := new_lr, perturb := new_perturb }

/-- The iteration-counter stage of the loop body (source line 261). -/
def incrementIterations (s : SPSAOptimizerResults) : SPSAOptimizerResults :=
  { s with num_iterations := s.num_iterations + 1 }

/-- The convergence-checker stage of the loop body (source lines 262-265). -/
def convergenceUpdate (s : SPSAOptimizerResults) : SPSAOptimizerResults :=
  let conv := ObjVal.absDiffLt s.objective_value
    s.objective_value_previous_iteration s.tolerance
  { s with converged := conv }

/-- `_spsa_once` either accepts or rejects the candidate, according to the
guard `acceptGuard` disjoined with `blocking` being off. -/
theorem spsa_once_eq (f : List ℚ → ℚ) (delta : List ℚ)
    (s : SPSAOptimizerResults) :
    _spsa_once f delta s =
      if (acceptGuard f delta s || !s.blocking) then acceptedState f delta s
      else rejectedState s := by
  unfold _spsa_once acceptGuard acceptedState rejectedState currentObj
    candidatePosition gradEstimate
  rfl

/-- The loop body is the composition of the four stages, in order: schedule
update, one SPSA step (with this iteration's generator draw), iteration
increment, convergence check. -/
theorem body_eq_stages (f : List ℚ → ℚ) (powf : ℚ → ℚ → ℚ)
    (lr_init perturb_init : ℚ) (max_iterations : ℤ)
    (stream : ℕ → List Bool) (s : SPSAOptimizerResults) :
    _body f powf lr_init perturb_init max_iterations stream s =
      convergenceUpdate (incrementIterations
        (_spsa_once f (deltaShift (stream s.num_iterations))
          (scheduleUpdate powf lr_init perturb_init max_iterations s))) := by
  unfold _body convergenceUpdate incrementIterations scheduleUpdate
  rfl

/-- A single SPSA step never changes the iteration counter. -/
@[simp]
theorem spsa_once_num_iterations (f : List ℚ → ℚ) (delta : List ℚ)
    (s : SPSAOptimizerResults) :
    (_spsa_once f delta s).num_iterations = s.num_iterations := by
  rw [spsa_once_eq]; split <;> rfl

/-- A single SPSA step adds exactly 2 to the evaluation counter, accepted or
not. -/
@[simp]
theorem spsa_once_num_objective_evaluations (f : List ℚ → ℚ)
    (delta : List ℚ) (s : SPSAOptimizerResults) :
    (_spsa_once f delta s).num_objective_evaluations =
      s.num_objective_evaluations + 2 := by
  rw [spsa_once_eq]; split <;> rfl

/-- A single SPSA step never changes the convergence flag. -/
@[simp]
theorem spsa_once_converged (f : List ℚ → ℚ) (delta : List ℚ)
    (s : SPSAOptimizerResults) :
    (_spsa_once f delta s).converged = s.converged := by
  rw [spsa_once_eq]; split <;> rfl

/-- A single SPSA step never changes the tolerance. -/
@[simp]
theorem spsa_once_tolerance (f : List ℚ → ℚ) (delta : List ℚ)
    (s : SPSAOptimizerResults) :
    (_spsa_once f delta s).tolerance = s.tolerance := by
  rw [spsa_once_eq]; split <;> rfl

/-- A single SPSA step never changes the learning rate. -/
@[simp]
theorem spsa_once_lr (f : List ℚ → ℚ) (delta : List ℚ)
    (s : SPSAOptimizerResults) :
    (_spsa_once f delta s).lr = s.lr := by
  rw [spsa_once_eq]; split <;> rfl

/-- A single SPSA step never changes the decay exponent `alpha`. -/
@[simp]
theorem spsa_once_alpha (f : List ℚ → ℚ) (delta : List ℚ)
    (s : SPSAOptimizerResults) :
    (_spsa_once f delta s).alpha = s.alpha := by
  rw [spsa_once_eq]; split <;> rfl

/-- A single SPSA step never changes the perturbation magnitude. -/
@[simp]
theorem spsa_once_perturb (f : List ℚ → ℚ) (delta : List ℚ)
    (s : SPSAOptimizerResults) :
    (_spsa_once f delta s).perturb = s.perturb := by
  rw [spsa_once_eq]; split <;> rfl

/-- A single SPSA step never changes the decay exponent `gamma`. -/
@[simp]
theorem spsa_once_gamma (f : List ℚ → ℚ) (delta : List ℚ)
    (s : SPSAOptimizerResults) :
    (_spsa_once f delta s).gamma = s.gamma := by
  rw [spsa_once_eq]; split <;> rfl

/-- A single SPSA step never changes the blocking flag. -/
@[simp]
theorem spsa_once_blocking (f : List ℚ → ℚ) (delta : List ℚ)
    (s : SPSAOptimizerResults) :
    (_spsa_once f delta s).blocking = s.blocking := by
  rw [spsa_once_eq]; split <;> rfl

/-- A single SPSA step never changes `allowed_increase`. -/
@[simp]
theorem spsa_once_allowed_increase (f : List ℚ → ℚ) (delta : List ℚ)
    (s : SPSAOptimizerResults) :
    (_spsa_once f delta s).allowed_increase = s.allowed_increase := by
  rw [spsa_once_eq]; split <;> rfl

/-- The loop body increments the iteration counter by exactly one. -/
@[simp]
theorem body_num_iterations (f : List ℚ → ℚ) (powf : ℚ → ℚ → ℚ)
    (lr_init perturb_init : ℚ) (max_iterations : ℤ)
    (stream : ℕ → List Bool) (s : SPSAOptimizerResults) :
    (_body f powf lr_init perturb_init max_iterations stream
      s).num_iterations = s.num_iterations + 1 := by
  rw [body_eq_stages]
  show (_spsa_once _ _ _).num_iterations + 1 = s.num_iterations + 1
  rw [spsa_once_num_iterations]; rfl

/-- The loop body adds exactly 2 to the evaluation counter. -/
@[simp]
theorem body_num_objective_evaluations (f : List ℚ → ℚ) (powf : ℚ → ℚ → ℚ)
    (lr_init perturb_init : ℚ) (max_iterations : ℤ)
    (stream : ℕ → List Bool) (s : SPSAOptimizerResults) :
    (_body f powf lr_init perturb_init max_iterations stream
      s).num_objective_evaluations = s.num_objective_evaluations + 2 := by
  rw [body_eq_stages]
  show (_spsa_once _ _ _).num_objective_evaluations =
    s.num_objective_evaluations + 2
  rw [spsa_once_num_objective_evaluations]; rfl

/-- The loop body never changes the tolerance. -/
@[simp]
theorem body_tolerance (f : List ℚ → ℚ) (powf : ℚ → ℚ → ℚ)
    (lr_init perturb_init : ℚ) (max_iterations : ℤ)
    (stream : ℕ → List Bool) (s : SPSAOptimizerResults) :
    (_body f powf lr_init perturb_init max_iterations stream s).tolerance =
      s.tolerance := by
  rw [body_eq_stages]
  show (_spsa_once _ _ _).tolerance = s.tolerance
  rw [spsa_once_tolerance]; rfl

/-- The loop body never changes the decay exponent `alpha`. -/
@[simp]
theorem body_alpha (f : List ℚ → ℚ) (powf : ℚ → ℚ → ℚ)
    (lr_init perturb_init : ℚ) (max_iterations : ℤ)
    (stream : ℕ → List Bool) (s : SPSAOptimizerResults) :
    (_body f powf lr_init perturb_init max_iterations stream s).alpha =
      s.alpha := by
  rw [body_eq_stages]
  show (_spsa_once _ _ _).alpha = s.alpha
  rw [spsa_once_alpha]; rfl

/-- The loop body never changes the decay exponent `gamma`. -/
@[simp]
theorem body_gamma (f : List ℚ → ℚ) (powf : ℚ → ℚ → ℚ)
    (lr_init perturb_init : ℚ) (max_iterations : ℤ)
    (stream : ℕ → List Bool) (s : SPSAOptimizerResults) :
    (_body f powf lr_init perturb_init max_iterations stream s).gamma =
      s.gamma := by
  rw [body_eq_stages]
  show (_spsa_once _ _ _).gamma = s.gamma
  rw [spsa_once_gamma]; rfl

/-- The loop body never changes the blocking flag. -/
@[simp]
theorem body_blocking (f : List ℚ → ℚ) (powf : ℚ → ℚ → ℚ)
    (lr_init perturb_init : ℚ) (max_iterations : ℤ)
    (stream : ℕ → List Bool) (s : SPSAOptimizerResults) :
    (_body f powf lr_init perturb_init max_iterations stream s).blocking =
      s.blocking := by
  rw [body_eq_stages]
  show (_spsa_once _ _ _).blocking = s.blocking
  rw [spsa_once_blocking]; rfl

/-- The loop body never changes `allowed_increase`. -/
@[simp]
theorem body_allowed_increase (f : List ℚ → ℚ) (powf : ℚ → ℚ → ℚ)
    (lr_init perturb_init : ℚ) (max_iterations : ℤ)
    (stream : ℕ → List Bool) (s : SPSAOptimizerResults) :
    (_body f powf lr_init perturb_init max_iterations stream
      s).allowed_increase = s.allowed_increase := by
  rw [body_eq_stages]
  show (_spsa_once _ _ _).allowed_increase = s.allowed_increase
  rw [spsa_once_allowed_increase]; rfl

/-- Any property preserved by guarded body applications is an invariant of
the fuelled while loop. -/
theorem whileLoopFuel_inv (f : List ℚ → ℚ) (powf : ℚ → ℚ → ℚ)
    (lr_init perturb_init : ℚ) (max_iterations : ℤ)
    (stream : ℕ → List Bool) (P : SPSAOptimizerResults → Prop)
    (step : ∀ s, _cond max_iterations s = true → P s →
      P (_body f powf lr_init perturb_init max_iterations stream s)) :
    ∀ fuel s, P s →
      P (whileLoopFuel f powf lr_init perturb_init max_iterations stream
          fuel s) := by
  intro fuel
  induction fuel with
  | zero => intro s hP; simpa [whileLoopFuel] using hP
  | succ n ih =>
    intro s hP
    simp only [whileLoopFuel]
    split
    · exact ih _ (step s (by assumption) hP)
    · exact hP

/-- With enough fuel, the fuelled loop stops only in states that fail the
continuation predicate. -/
theorem cond_whileLoopFuel_false (f : List ℚ → ℚ) (powf : ℚ → ℚ → ℚ)
    (lr_init perturb_init : ℚ) (max_iterations : ℤ)
    (stream : ℕ → List Bool) :
    ∀ (fuel : ℕ) (s : SPSAOptimizerResults),
      max_iterations ≤ (s.num_iterations : ℤ) + (fuel : ℤ) →
      _cond max_iterations
        (whileLoopFuel f powf lr_init perturb_init max_iterations stream
          fuel s) = false := by
  intro fuel
  induction fuel with
  | zero =>
    intro s h
    have hn : ¬ ((s.num_iterations : ℤ) < max_iterations) := by omega
    simp [whileLoopFuel, _cond, hn]
  | succ n ih =>
    intro s h
    simp only [whileLoopFuel]
    split
    · refine ih _ ?_
      rw [body_num_iterations]
      push_cast
      omega
    · next hc =>
      simpa using hc

/-- A tolerance that is not positive makes the convergence comparison false
for every pair of objective values. -/
theorem absDiffLt_of_nonpos (x : ℚ) (v : ObjVal) (t : ℚ) (ht : t ≤ 0) :
    ObjVal.absDiffLt x v t = false := by
  cases v with
  | inf => rfl
  | val p =>
    simp only [ObjVal.absDiffLt, decide_eq_false_iff_not]
    intro h
    exact absurd (lt_of_le_of_lt (abs_nonneg (x - p)) h) (by linarith)

/-- A concrete state used to instantiate hypotheses of the step-level
theorems. -/
def sampleState : SPSAOptimizerResults :=
  { converged := false
    num_iterations := 0
    num_objective_evaluations := 0
    position := [0]
    objective_value_previous_iteration := ObjVal.val 2
    objective_value := 1
    tolerance := 1 / 100
    lr := 1
    alpha := 3 / 5
    perturb := 1
    gamma := 1 / 10
    blocking := false
    allowed_increase := 1 / 2 }

/-- `sampleState` with blocking on and no allowed increase. -/
def sampleStateBlocking : SPSAOptimizerResults :=
  { sampleState with blocking := true, allowed_increase := 0 }

/-- `sampleState` with blocking on and the infinite initial previous
objective value. -/
def sampleStateInf : SPSAOptimizerResults :=
  { sampleState with
      blocking := true
      objective_value_previous_iteration := ObjVal.inf }

/-- C1: one SPSA step accepts the candidate unconditionally when blocking is
off (position moves to `position - lr * g`, the previous-objective slot
takes the old `objective_value`, and `objective_value` takes the candidate
objective); with blocking on, it accepts exactly when
`objective_value_previous_iteration + allowed_increase ≥ current_obj`, and
otherwise leaves `position` and `objective_value` unchanged. -/
theorem claim_C1_acceptance_rule (f : List ℚ → ℚ) (delta : List ℚ)
    (s : SPSAOptimizerResults) :
    (s.blocking = false → _spsa_once f delta s = acceptedState f delta s) ∧
    (s.blocking = true →
      (acceptGuard f delta s = true →
        _spsa_once f delta s = acceptedState f delta s) ∧
      (acceptGuard f delta s = false →
        (_spsa_once f delta s).position = s.position ∧
        (_spsa_once f delta s).objective_value = s.objective_value)) := by
  rw [spsa_once_eq]
  constructor
  · intro hb; simp [hb]
  · intro hb
    constructor
    · intro hg; simp [hg]
    · intro hg; simp [hb, hg, rejectedState]

/-- Witness for C1 at a concrete non-blocking state. -/
theorem claim_C1_witness :
    sampleState.blocking = false ∧
    _spsa_once (fun _ => 0) [1] sampleState =
      acceptedState (fun _ => 0) [1] sampleState :=
  ⟨rfl, (claim_C1_acceptance_rule (fun _ => 0) [1] sampleState).1 rfl⟩

/-- The objective used by the counterexample runs: a lookup table on the
positions visited by the run started at `[0]` with unit learning rate and
perturbation. -/
def cexObjective : List ℚ → ℚ := fun x =>
  if x = [0] then 1
  else if x = [-1] then 0
  else if x = [1] then -10
  else if x = [5] then 5
  else 0

/-- A full one-iteration run of `minimize` with blocking on and
`allowed_increase = 0`: the first candidate (objective 5) is accepted
against the infinite initial previous value even though it is worse than
the upfront objective 1. -/
def cexRun : SPSAOptimizerResults :=
  minimize cexObjective (fun _ _ => 1) [0] (1 / 1000) 1 (3 / 5) 1 1 (1 / 10)
    true 0 (fun _ => [true])

/-- C2 as stated is false: in `cexRun` (blocking on, `allowed_increase = 0`)
the single step is accepted (the position moves from `[0]` to `[5]` and the
counters advance), yet afterwards `objective_value = 5` exceeds
`objective_value_previous_iteration = 1`. -/
theorem claim_C2_counterexample :
    cexRun.blocking = true ∧
    cexRun.allowed_increase = 0 ∧
    cexRun.num_iterations = 1 ∧
    cexRun.position = [5] ∧
    cexRun.objective_value = 5 ∧
    cexRun.objective_value_previous_iteration = ObjVal.val 1 ∧
    ObjVal.geQ cexRun.objective_value_previous_iteration
      cexRun.objective_value = false := by
  norm_num [cexRun, minimize, whileLoopFuel, initialStateEvaluated,
    _get_initial_state, _cond, _body, _spsa_once, cexObjective, vsub, vadd,
    smulV, deltaShift, ObjVal.addQ, ObjVal.geQ, ObjVal.absDiffLt, Int.toNat]

/-- C2 amended: with blocking on and `allowed_increase = 0`, an accepted
step's new `objective_value` does not exceed the pre-step
`objective_value_previous_iteration` — the value the guard compares against
— rather than the value displaced into that slot. -/
theorem claim_C2_blocking_nonregression (f : List ℚ → ℚ) (delta : List ℚ)
    (s : SPSAOptimizerResults) (hb : s.blocking = true)
    (ha : s.allowed_increase = 0)
    (hacc : acceptGuard f delta s = true) :
    ObjVal.geQ s.objective_value_previous_iteration
      ((_spsa_once f delta s).objective_value) = true := by
  rw [spsa_once_eq]
  simp only [hacc, Bool.true_or, if_pos]
  show ObjVal.geQ s.objective_value_previous_iteration
    (currentObj f delta s) = true
  rw [acceptGuard, ha] at hacc
  cases h : s.objective_value_previous_iteration with
  | inf => rfl
  | val p =>
    rw [h] at hacc
    simp only [ObjVal.addQ, ObjVal.geQ, add_zero] at hacc ⊢
    exact hacc

/-- Witness for the amended C2 at a concrete accepted blocking step. -/
theorem claim_C2_witness :
    sampleStateBlocking.blocking = true ∧
    sampleStateBlocking.allowed_increase = 0 ∧
    acceptGuard (fun _ => 0) [1] sampleStateBlocking = true ∧
    ObjVal.geQ sampleStateBlocking.objective_value_previous_iteration
      ((_spsa_once (fun _ => 0) [1]
        sampleStateBlocking).objective_value) = true :=
  ⟨rfl, rfl,
    by norm_num [acceptGuard, currentObj, candidatePosition, gradEstimate,
      smulV, vsub, vadd, ObjVal.addQ, ObjVal.geQ, sampleStateBlocking,
      sampleState],
    claim_C2_blocking_nonregression (fun _ => 0) [1] sampleStateBlocking rfl
      rfl
      (by norm_num [acceptGuard, currentObj, candidatePosition, gradEstimate,
        smulV, vsub, vadd, ObjVal.addQ, ObjVal.geQ, sampleStateBlocking,
        sampleState])⟩

/-- C10: the initial state has `objective_value_previous_iteration = ∞`,
and any step taken from a state with that infinite previous value is
accepted regardless of `blocking`, `allowed_increase`, and the (finite)
candidate objective, since `∞ + allowed_increase ≥ current_obj` always
holds. -/
theorem claim_C10_first_step_accepted (initial_position : List ℚ)
    (tolerance : ℚ) (f0 : List ℚ → ℚ) (lr alpha perturb gamma : ℚ)
    (blocking : Bool) (allowed_increase : ℚ) (f : List ℚ → ℚ)
    (delta : List ℚ) (s : SPSAOptimizerResults)
    (h : s.objective_value_previous_iteration = ObjVal.inf) :
    (_get_initial_state initial_position tolerance f0 lr alpha perturb gamma
      blocking allowed_increase).objective_value_previous_iteration =
        ObjVal.inf ∧
    _spsa_once f delta s = acceptedState f delta s := by
  refine ⟨rfl, ?_⟩
  rw [spsa_once_eq]
  have hg : acceptGuard f delta s = true := by
    rw [acceptGuard, h]; rfl
  simp [hg]

/-- Witness for C10 at a concrete state with an infinite previous objective
value. -/
theorem claim_C10_witness :
    sampleStateInf.objective_value_previous_iteration = ObjVal.inf ∧
    _spsa_once (fun _ => 0) [1] sampleStateInf =
      acceptedState (fun _ => 0) [1] sampleStateInf :=
  ⟨rfl,
    (claim_C10_first_step_accepted [0] (1 / 100) (fun _ => 0) 1 (3 / 5) 1
      (1 / 10) false (1 / 2) (fun _ => 0) [1] sampleStateInf rfl).2⟩

/-- A run with `max_iterations = -1`: no validation error exists in the
code, so the call returns normally — and the upfront evaluation still
happens. -/
def c3Run : SPSAOptimizerResults :=
  minimize (fun _ => 42) (fun _ _ => 1) [0] (1 / 1000) (-1) (3 / 5) 1 1
    (1 / 10) false (1 / 2) (fun _ => [true])

/-- C3 as stated is false: with `max_iterations = -1` the run returns
normally (no error path exists in the code), the evaluation counter is
indeed 0, but the objective function *is* called — its value 42 at the
initial position lands in `objective_value`, which was initialised to 0. -/
theorem claim_C3_counterexample :
    c3Run.num_iterations = 0 ∧
    c3Run.num_objective_evaluations = 0 ∧
    c3Run.position = [0] ∧
    c3Run.objective_value = 42 :=
  ⟨rfl, rfl, rfl, rfl⟩

/-- C3 amended: `minimize` performs no validation and raises no error. With
negative `max_iterations` the loop never runs, so the returned state is the
initial state after the upfront evaluation: counters 0, position unmoved,
and `objective_value = f(initial_position)` — the objective is called once.
With negative `tolerance` the run also proceeds normally and `converged`
remains false. -/
theorem claim_C3_no_validation (f : List ℚ → ℚ) (powf : ℚ → ℚ → ℚ)
    (initial_position : List ℚ) (tolerance : ℚ) (max_iterations : ℤ)
    (alpha lr perturb gamma : ℚ) (blocking : Bool) (allowed_increase : ℚ)
    (stream : ℕ → List Bool) :
    (max_iterations < 0 →
      minimize f powf initial_position tolerance max_iterations alpha lr
          perturb gamma blocking allowed_increase stream =
        initialStateEvaluated f initial_position tolerance lr alpha perturb
          gamma blocking allowed_increase ∧
      (minimize f powf initial_position tolerance max_iterations alpha lr
          perturb gamma blocking allowed_increase
          stream).objective_value = f initial_position ∧
      (minimize f powf initial_position tolerance max_iterations alpha lr
          perturb gamma blocking allowed_increase
          stream).num_objective_evaluations = 0) ∧
    (tolerance < 0 →
      (minimize f powf initial_position tolerance max_iterations alpha lr
          perturb gamma blocking allowed_increase stream).converged =
        false) := by
  constructor
  · intro hneg
    have hfuel : max_iterations.toNat = 0 := Int.toNat_of_nonpos hneg.le
    rw [minimize, hfuel]
    exact ⟨rfl, rfl, rfl⟩
  · intro htol
    have := whileLoopFuel_inv f powf lr perturb max_iterations stream
      (fun s => s.converged = false ∧ s.tolerance = tolerance)
      (by
        intro s _ hP
        constructor
        · rw [body_eq_stages]
          show ObjVal.absDiffLt _ _ (_spsa_once _ _ _).tolerance = false
          rw [spsa_once_tolerance]
          show ObjVal.absDiffLt _ _ (scheduleUpdate _ _ _ _ s).tolerance =
            false
          have hst : (scheduleUpdate powf lr perturb max_iterations
              s).tolerance = s.tolerance := rfl
          rw [hst, hP.2]
          exact absDiffLt_of_nonpos _ _ _ htol.le
        · rw [body_tolerance]; exact hP.2)
      max_iterations.toNat
      (initialStateEvaluated f initial_position tolerance lr alpha perturb
        gamma blocking allowed_increase)
      ⟨rfl, rfl⟩
    exact this.1

/-- Witness for the amended C3 at concrete inputs: negative budget and
negative tolerance. -/
theorem claim_C3_witness :
    ((-2 : ℤ) < 0 ∧
      minimize (fun _ => 7) (fun _ _ => 1) [0] (-1) (-2) (3 / 5) 1 1
          (1 / 10) false (1 / 2) (fun _ => [true]) =
        initialStateEvaluated (fun _ => 7) [0] (-1) 1 (3 / 5) 1 (1 / 10)
          false (1 / 2)) ∧
    ((-1 : ℚ) < 0 ∧
      (minimize (fun _ => 7) (fun _ _ => 1) [0] (-1) (-2) (3 / 5) 1 1
          (1 / 10) false (1 / 2) (fun _ => [true])).converged = false) :=
  ⟨⟨by decide,
     ((claim_C3_no_validation (fun _ => 7) (fun _ _ => 1) [0] (-1) (-2)
        (3 / 5) 1 1 (1 / 10) false (1 / 2) (fun _ => [true])).1
       (by decide)).1⟩,
   ⟨by norm_num,
     (claim_C3_no_validation (fun _ => 7) (fun _ _ => 1) [0] (-1) (-2)
        (3 / 5) 1 1 (1 / 10) false (1 / 2) (fun _ => [true])).2
       (by norm_num)⟩⟩

/-- C4: in every run with a non-negative iteration budget, `num_iterations`
never decreases along the trajectory and never exceeds `max_iterations`,
and at every trajectory point — the initial state included —
`num_objective_evaluations = 2 * num_iterations`; the returned state
satisfies the same counter equation and bound. -/
theorem claim_C4_counters (f : List ℚ → ℚ) (powf : ℚ → ℚ → ℚ)
    (initial_position : List ℚ) (tolerance : ℚ) (max_iterations : ℤ)
    (alpha lr perturb gamma : ℚ) (blocking : Bool) (allowed_increase : ℚ)
    (stream : ℕ → List Bool) (hmax : 0 ≤ max_iterations) :
    (∀ j : ℕ,
      (traj f powf initial_position tolerance max_iterations alpha lr
          perturb gamma blocking allowed_increase stream j).num_iterations ≤
      (traj f powf initial_position tolerance max_iterations alpha lr
          perturb gamma blocking allowed_increase stream
          (j + 1)).num_iterations) ∧
    (∀ j : ℕ,
      ((traj f powf initial_position tolerance max_iterations alpha lr
          perturb gamma blocking allowed_increase stream
          j).num_iterations : ℤ) ≤ max_iterations) ∧
    (∀ j : ℕ,
      (traj f powf initial_position tolerance max_iterations alpha lr
          perturb gamma blocking allowed_increase stream
          j).num_objective_evaluations =
      2 * (traj f powf initial_position tolerance max_iterations alpha lr
          perturb gamma blocking allowed_increase stream
          j).num_iterations) ∧
    ((minimize f powf initial_position tolerance max_iterations alpha lr
        perturb gamma blocking allowed_increase
        stream).num_objective_evaluations =
      2 * (minimize f powf initial_position tolerance max_iterations alpha
        lr perturb gamma blocking allowed_increase
        stream).num_iterations ∧
     ((minimize f powf initial_position tolerance max_iterations alpha lr
        perturb gamma blocking allowed_increase
        stream).num_iterations : ℤ) ≤ max_iterations) := by
  refine ⟨?_, ?_, ?_, ?_⟩
  · intro j
    show _ ≤ (stepIf f powf lr perturb max_iterations stream _).num_iterations
    rw [stepIf]
    split
    · rw [body_num_iterations]; exact Nat.le_succ _
    · exact le_refl _
  · intro j
    induction j with
    | zero => simpa [traj, initialStateEvaluated, _get_initial_state] using
        hmax
    | succ n ih =>
      show ((stepIf f powf lr perturb max_iterations stream
        _).num_iterations : ℤ) ≤ max_iterations
      rw [stepIf]
      split
      · next hc =>
        rw [body_num_iterations]
        have hlt : ((traj f powf initial_position tolerance max_iterations
            alpha lr perturb gamma blocking allowed_increase stream
            n).num_iterations : ℤ) < max_iterations := by
          have := (Bool.and_eq_true _ _).mp hc
          exact of_decide_eq_true this.1
        push_cast
        omega
      · exact ih
  · intro j
    induction j with
    | zero => rfl
    | succ n ih =>
      show (stepIf f powf lr perturb max_iterations stream
        _).num_objective_evaluations = 2 * (stepIf f powf lr perturb
        max_iterations stream _).num_iterations
      rw [stepIf]
      split
      · rw [body_num_objective_evaluations, body_num_iterations]
        omega
      · exact ih
  · have := whileLoopFuel_inv f powf lr perturb max_iterations stream
      (fun s => s.num_objective_evaluations = 2 * s.num_iterations ∧
        (s.num_iterations : ℤ) ≤ max_iterations)
      (by
        intro s hc hP
        have hlt : ((s.num_iterations : ℤ)) < max_iterations := by
          have := (Bool.and_eq_true _ _).mp hc
          exact of_decide_eq_true this.1
        rw [body_num_objective_evaluations, body_num_iterations]
        constructor
        · omega
        · push_cast; omega)
      max_iterations.toNat
      (initialStateEvaluated f initial_position tolerance lr alpha perturb
        gamma blocking allowed_increase)
      ⟨rfl, by simpa [initialStateEvaluated, _get_initial_state] using hmax⟩
    exact this

/-- Witness for C4 at concrete inputs with budget 1. -/
theorem claim_C4_witness :
    (0 : ℤ) ≤ 1 ∧
    ((minimize cexObjective (fun _ _ => 1) [0] (1 / 1000) 1 (3 / 5) 1 1
        (1 / 10) true 0
        (fun _ => [true])).num_objective_evaluations =
      2 * (minimize cexObjective (fun _ _ => 1) [0] (1 / 1000) 1 (3 / 5) 1 1
        (1 / 10) true 0 (fun _ => [true])).num_iterations) :=
  ⟨by decide,
    ((claim_C4_counters cexObjective (fun _ _ => 1) [0] (1 / 1000) 1 (3 / 5)
      1 1 (1 / 10) true 0 (fun _ => [true]) (by decide)).2.2.2).1⟩

/-- C5: before the gradient-estimation step of each iteration, the loop
body recomputes the learning rate as
`lr_initial / (k + 1 + 0.01 * max_iterations) ^ alpha` and the perturbation
magnitude as `perturb_initial / (k + 1) ^ gamma`, where `k` is the
iteration counter before its increment and `lr_initial`/`perturb_initial`
are the fixed initial values — not the current state's decayed values. -/
theorem claim_C5_schedule (f : List ℚ → ℚ) (powf : ℚ → ℚ → ℚ)
    (lr_init perturb_init : ℚ) (max_iterations : ℤ)
    (stream : ℕ → List Bool) (s : SPSAOptimizerResults) :
    ((_body f powf lr_init perturb_init max_iterations stream s).lr =
      lr_init / powf (((s.num_iterations : ℚ) + 1) +
        (1 / 100) * (max_iterations : ℚ)) s.alpha) ∧
    ((_body f powf lr_init perturb_init max_iterations stream s).perturb =
      perturb_init / powf ((s.num_iterations : ℚ) + 1) s.gamma) ∧
    ((_body f powf lr_init perturb_init max_iterations stream
        s).num_iterations = s.num_iterations + 1) := by
  refine ⟨?_, ?_, body_num_iterations f powf lr_init perturb_init
    max_iterations stream s⟩
  · rw [body_eq_stages]
    show (_spsa_once _ _ _).lr = _
    rw [spsa_once_lr]
    rfl
  · rw [body_eq_stages]
    show (_spsa_once _ _ _).perturb = _
    rw [spsa_once_perturb]
    rfl

/-- C6: each iteration runs, in order, the schedule update, one SPSA step
(with this iteration's generator draw), the iteration-counter increment,
and the convergence check; the continuation predicate is
`num_iterations < max_iterations` and not `converged`; the loop unfolds one
guarded step at a time; and `minimize` only returns states falsifying the
continuation predicate. -/
theorem claim_C6_loop_structure (f : List ℚ → ℚ) (powf : ℚ → ℚ → ℚ)
    (initial_position : List ℚ) (tolerance : ℚ) (max_iterations : ℤ)
    (alpha lr perturb gamma : ℚ) (blocking : Bool) (allowed_increase : ℚ)
    (stream : ℕ → List Bool) :
    (∀ s : SPSAOptimizerResults,
      _body f powf lr perturb max_iterations stream s =
        convergenceUpdate (incrementIterations
          (_spsa_once f (deltaShift (stream s.num_iterations))
            (scheduleUpdate powf lr perturb max_iterations s)))) ∧
    (∀ s : SPSAOptimizerResults,
      _cond max_iterations s = true ↔
        ((s.num_iterations : ℤ) < max_iterations ∧ s.converged = false)) ∧
    (∀ (n : ℕ) (s : SPSAOptimizerResults),
      whileLoopFuel f powf lr perturb max_iterations stream (n + 1) s =
        if _cond max_iterations s then
          whileLoopFuel f powf lr perturb max_iterations stream n
            (_body f powf lr perturb max_iterations stream s)
        else s) ∧
    (_cond max_iterations
      (minimize f powf initial_position tolerance max_iterations alpha lr
        perturb gamma blocking allowed_increase stream) = false) := by
  refine ⟨body_eq_stages f powf lr perturb max_iterations stream, ?_, ?_,
    ?_⟩
  · intro s
    simp [_cond, Bool.and_eq_true, Bool.not_eq_true', decide_eq_true_eq]
  · intro n s; rfl
  · rw [minimize]
    apply cond_whileLoopFuel_false
    have h0 : ((initialStateEvaluated f initial_position tolerance lr alpha
        perturb gamma blocking allowed_increase).num_iterations : ℤ) = 0 :=
      rfl
    rw [h0]
    simp

/-- Witness for C6: its final conjunct instantiated at a concrete run. -/
theorem claim_C6_witness :
    _cond 1 (minimize cexObjective (fun _ _ => 1) [0] (1 / 1000) 1 (3 / 5)
      1 1 (1 / 10) true 0 (fun _ => [true])) = false :=
  (claim_C6_loop_structure cexObjective (fun _ _ => 1) [0] (1 / 1000) 1
    (3 / 5) 1 1 (1 / 10) true 0 (fun _ => [true])).2.2.2

/-- C7: with `max_iterations = 0` the loop never runs, so for every
objective and initial position `minimize` returns `converged = false`,
`num_iterations = 0`, and the position it was given. -/
theorem claim_C7_zero_budget (f : List ℚ → ℚ) (powf : ℚ → ℚ → ℚ)
    (initial_position : List ℚ) (tolerance : ℚ)
    (alpha lr perturb gamma : ℚ) (blocking : Bool) (allowed_increase : ℚ)
    (stream : ℕ → List Bool) :
    (minimize f powf initial_position tolerance 0 alpha lr perturb gamma
        blocking allowed_increase stream).converged = false ∧
    (minimize f powf initial_position tolerance 0 alpha lr perturb gamma
        blocking allowed_increase stream).num_iterations = 0 ∧
    (minimize f powf initial_position tolerance 0 alpha lr perturb gamma
        blocking allowed_increase stream).position = initial_position :=
  ⟨rfl, rfl, rfl⟩

/-- C8: the only nondeterminism of a run is the generator; the seeded
generator is a function of the seed, modelled as the draw stream. Two runs
whose streams agree pointwise produce identical position and
objective-value trajectories, and identical returned states. -/
theorem claim_C8_determinism (f : List ℚ → ℚ) (powf : ℚ → ℚ → ℚ)
    (initial_position : List ℚ) (tolerance : ℚ) (max_iterations : ℤ)
    (alpha lr perturb gamma : ℚ) (blocking : Bool) (allowed_increase : ℚ)
    (stream1 stream2 : ℕ → List Bool) (h : ∀ n, stream1 n = stream2 n) :
    (∀ j : ℕ,
      (traj f powf initial_position tolerance max_iterations alpha lr
          perturb gamma blocking allowed_increase stream1 j).position =
        (traj f powf initial_position tolerance max_iterations alpha lr
          perturb gamma blocking allowed_increase stream2 j).position ∧
      (traj f powf initial_position tolerance max_iterations alpha lr
          perturb gamma blocking allowed_increase stream1
          j).objective_value =
        (traj f powf initial_position tolerance max_iterations alpha lr
          perturb gamma blocking allowed_increase stream2
          j).objective_value) ∧
    minimize f powf initial_position tolerance max_iterations alpha lr
        perturb gamma blocking allowed_increase stream1 =
      minimize f powf initial_position tolerance max_iterations alpha lr
        perturb gamma blocking allowed_increase stream2 := by
  have hs : stream1 = stream2 := funext h
  subst hs
  exact ⟨fun j => ⟨rfl, rfl⟩, rfl⟩

/-- Witness for C8 at two concrete pointwise-equal streams. -/
theorem claim_C8_witness :
    (∀ n : ℕ, (fun _ : ℕ => [true]) n = (fun _ : ℕ => [true, false].take 1) n) ∧
    minimize cexObjective (fun _ _ => 1) [0] (1 / 1000) 1 (3 / 5) 1 1
        (1 / 10) true 0 (fun _ => [true]) =
      minimize cexObjective (fun _ _ => 1) [0] (1 / 1000) 1 (3 / 5) 1 1
        (1 / 10) true 0 (fun _ => [true, false].take 1) :=
  ⟨fun _ => rfl,
    (claim_C8_determinism cexObjective (fun _ _ => 1) [0] (1 / 1000) 1
      (3 / 5) 1 1 (1 / 10) true 0 (fun _ => [true])
      (fun _ => [true, false].take 1) (fun _ => rfl)).2⟩

/-- C9: the configuration fields `tolerance`, `alpha`, `gamma`, `blocking`,
`allowed_increase` are untouched by every loop body application, and the
state returned by `minimize` carries exactly the values supplied at the
call. -/
theorem claim_C9_config_frame (f : List ℚ → ℚ) (powf : ℚ → ℚ → ℚ)
    (initial_position : List ℚ) (tolerance : ℚ) (max_iterations : ℤ)
    (alpha lr perturb gamma : ℚ) (blocking : Bool) (allowed_increase : ℚ)
    (stream : ℕ → List Bool) :
    (∀ s : SPSAOptimizerResults,
      (_body f powf lr perturb max_iterations stream s).tolerance =
        s.tolerance ∧
      (_body f powf lr perturb max_iterations stream s).alpha = s.alpha ∧
      (_body f powf lr perturb max_iterations stream s).gamma = s.gamma ∧
      (_body f powf lr perturb max_iterations stream s).blocking =
        s.blocking ∧
      (_body f powf lr perturb max_iterations stream s).allowed_increase =
        s.allowed_increase) ∧
    ((minimize f powf initial_position tolerance max_iterations alpha lr
        perturb gamma blocking allowed_increase stream).tolerance =
      tolerance ∧
     (minimize f powf initial_position tolerance max_iterations alpha lr
        perturb gamma blocking allowed_increase stream).alpha = alpha ∧
     (minimize f powf initial_position tolerance max_iterations alpha lr
        perturb gamma blocking allowed_increase stream).gamma = gamma ∧
     (minimize f powf initial_position tolerance max_iterations alpha lr
        perturb gamma blocking allowed_increase stream).blocking =
       blocking ∧
     (minimize f powf initial_position tolerance max_iterations alpha lr
        perturb gamma blocking allowed_increase stream).allowed_increase =
       allowed_increase) := by
  constructor
  · intro s
    exact ⟨body_tolerance f powf lr perturb max_iterations stream s,
      body_alpha f powf lr perturb max_iterations stream s,
      body_gamma f powf lr perturb max_iterations stream s,
      body_blocking f powf lr perturb max_iterations stream s,
      body_allowed_increase f powf lr perturb max_iterations stream s⟩
  · exact whileLoopFuel_inv f powf lr perturb max_iterations stream
      (fun s => s.tolerance = tolerance ∧ s.alpha = alpha ∧
        s.gamma = gamma ∧ s.blocking = blocking ∧
        s.allowed_increase = allowed_increase)
      (by
        intro s _ hP
        refine ⟨?_, ?_, ?_, ?_, ?_⟩
        · rw [body_tolerance]; exact hP.1
        · rw [body_alpha]; exact hP.2.1
        · rw [body_gamma]; exact hP.2.2.1
        · rw [body_blocking]; exact hP.2.2.2.1
        · rw [body_allowed_increase]; exact hP.2.2.2.2)
      max_iterations.toNat
      (initialStateEvaluated f initial_position tolerance lr alpha perturb
        gamma blocking allowed_increase)
      ⟨rfl, rfl, rfl, rfl, rfl⟩

end SPSA
